import Mathlib

/-!
# Verification of the Archon MCP health proxy

A shallow embedding of `src/python/src/mcp_server/health_proxy.py` and proofs
of the behavioral claims about it.

The proxy listens on a public port, answers `GET /health` locally with a fixed
JSON body, and forwards every other request to a backend process on a private
port, supervising that process's lifecycle (launch with an environment
override, log draining with a noise filter, graceful termination on shutdown).

Modelling conventions:
* header collections are association lists `List (String × String)`;
  Python `dict` comprehensions over them are embedded as left folds with
  replace-or-append insertion (`dictInsert`), which is exactly the `dict`
  update semantics (duplicate keys collapse, last value wins, first position
  kept);
* the network is abstracted as an oracle: a list of `ForwardOutcome`s, one per
  forward attempt the handler would make; the handler consumes a prefix of the
  oracle and reports how many attempts it made;
* byte strings (request and response bodies) are modelled as `String`;
* `subprocess.Popen.wait(timeout=...)` is modelled on the child's exit delay:
  it returns when the child exits within the bound and raises
  `TimeoutExpired` (an `Except` error) otherwise, per the `subprocess` API.
-/

namespace HealthProxy

/-- Public port that receives all requests (`PROXY_PORT = 8051`). -/
def PROXY_PORT : Nat := 8051

/-- Internal port where the MCP backend actually runs (`MCP_PORT = 8052`). -/
def MCP_PORT : Nat := 8052

/-- Header collections, as ordered association lists of name/value pairs.
A multidict (aiohttp `CIMultiDict`) may hold several entries with the same
name; a Python `dict` built from it collapses them. -/
abbrev Headers := List (String × String)

/-- An inbound HTTP request as seen by the proxy: method, path (used for
routing), path plus query string (`request.path_qs`, used to build the target
URL), header set, and optional body. -/
structure InboundRequest where
  method : String
  path : String
  path_qs : String
  headers : Headers
  body : Option String
deriving DecidableEq, Repr

/-- An upstream HTTP response from the backend: status, header set, body. -/
structure UpstreamResponse where
  status : Nat
  headers : Headers
  body : String
deriving DecidableEq, Repr

/-- The outcome of one forward attempt over the network:
the upstream responded, the attempt timed out (`asyncio.TimeoutError`),
or it raised some other exception (`except Exception`), carrying its message. -/
inductive ForwardOutcome where
  | success (resp : UpstreamResponse)
  | timeout
  | failure (msg : String)
deriving DecidableEq, Repr

/-- A response body: a JSON object (as built by `web.json_response`), a plain
text body (`web.Response(text=...)`), or raw bytes copied from upstream
(`web.Response(body=...)`). -/
inductive Body where
  | jsonObj (fields : List (String × String))
  | text (s : String)
  | raw (b : String)
deriving DecidableEq, Repr

/-- A response produced by the proxy.  `contentType` is the content type the
aiohttp constructor sets (`none` for a raw proxied response, whose content
type travels inside `headers`). -/
structure Response where
  status : Nat
  headers : Headers
  contentType : Option String
  body : Body
deriving DecidableEq, Repr

/-- `web.json_response(data)`: status 200, JSON content type, JSON body. -/
def json_response (fields : List (String × String)) : Response :=
  { status := 200, headers := [], contentType := some "application/json",
    body := .jsonObj fields }

/-- `web.Response(text=..., status=...)`: plain-text content type. -/
def textResponse (s : String) (status : Nat) : Response :=
  { status := status, headers := [], contentType := some "text/plain",
    body := .text s }

/-! ## Python dict semantics over association lists -/

/-- Python `d[k] = v` on an insertion-ordered `dict`: if the key is present
its value is replaced in place, otherwise the pair is appended. -/
def dictInsert (d : Headers) (k v : String) : Headers :=
  if d.any (fun p => p.1 == k) then
    d.map (fun p => if p.1 == k then (k, v) else p)
  else
    d ++ [(k, v)]

/-- Python `str.lower()` on ASCII header names: lowercase each character. -/
def pyLower (s : String) : String :=
  String.mk (s.data.map Char.toLower)

/-- One iteration of the dict comprehension: skip the pair when its name
(lowercased) is banned, otherwise insert it with dict semantics. -/
def filterStep (banned : List String) (d : Headers) (p : String × String) :
    Headers :=
  if banned.contains (pyLower p.1) then d else dictInsert d p.1 p.2

/-- `{k: v for k, v in l if k.lower() not in banned}`: build a dict from an
item sequence, skipping banned names (compared lowercased). -/
def buildFilteredDict (banned : List String) (l : Headers) : Headers :=
  l.foldl (filterStep banned) []

/-- Hop-by-hop names dropped from the forwarded request
(`health_proxy.py` line 67). -/
def hopByHopRequest : List String :=
  ["host", "connection", "keep-alive", "transfer-encoding", "upgrade"]

/-- Hop-by-hop names dropped from the relayed response
(`health_proxy.py` line 86). -/
def hopByHopResponse : List String :=
  ["connection", "keep-alive", "transfer-encoding", "content-encoding"]

/-- The request-direction header filter of `proxy_handler` (lines 66–68). -/
def filterRequestHeaders (hs : Headers) : Headers :=
  buildFilteredDict hopByHopRequest hs

/-- The response-direction header filter of `proxy_handler` (lines 85–87). -/
def filterResponseHeaders (hs : Headers) : Headers :=
  buildFilteredDict hopByHopResponse hs

/-! ## Frontend: routing and handlers -/

/-- Where the router sends a request (`setup_routes`): the `GET /health`
route is registered first, the catch-all route `('*', '/\x7bpath:.*\x7d')`
takes everything else. -/
inductive RouteTarget where
  | health
  | proxy
deriving DecidableEq, Repr

/-- Route resolution: `router.add_get('/health', ...)` registers the
liveness handler for GET and — because aiohttp's `add_get` defaults to
`allow_head=True` — also for HEAD on `/health`; any other method/path
combination falls through to the catch-all route and `proxy_handler`. -/
def resolve_route (method path : String) : RouteTarget :=
  if (method = "GET" ∨ method = "HEAD") ∧ path = "/health" then .health
  else .proxy

/-- `health_handler`: always the same fixed JSON response (lines 49–55). -/
def health_handler (_req : InboundRequest) : Response :=
  json_response
    [("status", "healthy"), ("service", "mcp-server"), ("proxy", "active")]

/-- The target URL built by `proxy_handler` (line 60):
`f"http://localhost:\x7bMCP_PORT\x7d\x7brequest.path_qs\x7d"`. -/
def target_url (req : InboundRequest) : String :=
  "http://localhost:" ++ toString MCP_PORT ++ req.path_qs

/-- The outbound request assembled by `proxy_handler` (lines 60–79):
same method and body, target URL on the private port, filtered headers,
redirects disabled, total timeout 30 seconds. -/
structure OutboundRequest where
  method : String
  url : String
  headers : Headers
  body : Option String
  allow_redirects : Bool
  timeout_total : Nat
deriving DecidableEq, Repr

/-- Assembling the outbound request from the inbound one. -/
def buildOutbound (req : InboundRequest) : OutboundRequest :=
  { method := req.method
  , url := target_url req
  , headers := filterRequestHeaders req.headers
  , body := req.body
  , allow_redirects := false
  , timeout_total := 30 }

/-- Mapping one forward outcome to the response `proxy_handler` returns
(lines 80–101): on success, status and body copied verbatim with filtered
headers; on `asyncio.TimeoutError`, `504 "Gateway Timeout"`; on any other
exception, `502 "Bad Gateway"`. -/
def outcomeToResponse (o : ForwardOutcome) : Response :=
  match o with
  | .success resp =>
      { status := resp.status
      , headers := filterResponseHeaders resp.headers
      , contentType := none
      , body := .raw resp.body }
  | .timeout => textResponse "Gateway Timeout" 504
  | .failure _ => textResponse "Bad Gateway" 502

/-- `proxy_handler` against a network oracle: it performs forward attempts by
consuming outcomes from the oracle front.  The result is the response (if the
oracle could serve the attempts) together with the number of attempts made.
The code makes a single `session.request` call, so exactly one outcome is
consumed. -/
def proxy_handler (_req : InboundRequest) (oracle : List ForwardOutcome) :
    Option Response × Nat :=
  match oracle with
  | [] => (none, 0)
  | o :: _ => (some (outcomeToResponse o), 1)

/-- The whole HTTP surface: dispatch on the route, then run the handler.
The health route never touches the network oracle (attempt count 0). -/
def handle_request (req : InboundRequest) (oracle : List ForwardOutcome) :
    Option Response × Nat :=
  match resolve_route req.method req.path with
  | .health => (some (health_handler req), 0)
  | .proxy => proxy_handler req oracle

/-! ## Supervisor: launch, log filter, shutdown -/

/-- The child environment built by `start_mcp_server` (lines 105–106):
`env = os.environ.copy(); env['ARCHON_MCP_PORT'] = str(MCP_PORT)`. -/
def child_env (inherited : Headers) : Headers :=
  dictInsert inherited "ARCHON_MCP_PORT" (toString MCP_PORT)

/-- Substring containment, the semantics of Python's `sub in line`: the
character sequence of `sub` occurs contiguously inside that of `s`. -/
def strContains (s sub : String) : Bool :=
  decide (sub.data <:+: s.data)

/-- The log-noise filter in `log_mcp_output` (line 125): a child output line
is printed when `"GET /health" not in line or "404" not in line`. -/
def shouldPrint (line : String) : Bool :=
  !(strContains line "GET /health") || !(strContains line "404")

/-- Events emitted by `start` (lines 131–143), in program order: launch the
backend child with its environment, sleep the settle delay, bind the frontend
listener. -/
inductive StartEvent where
  | launchBackend (env : Headers)
  | sleep (seconds : Nat)
  | bindFrontend (host : String) (port : Nat)
deriving DecidableEq, Repr

/-- Whether a start event is a backend launch. -/
def StartEvent.isLaunch : StartEvent → Bool
  | .launchBackend _ => true
  | _ => false

/-- Whether a start event is a sleep. -/
def StartEvent.isSleep : StartEvent → Bool
  | .sleep _ => true
  | _ => false

/-- Whether a start event is the frontend bind. -/
def StartEvent.isBind : StartEvent → Bool
  | .bindFrontend _ _ => true
  | _ => false

/-- The straight-line startup sequence of `start`:
`start_mcp_server()`, `await asyncio.sleep(2)`, bind `0.0.0.0:PROXY_PORT`. -/
def start_events (inherited : Headers) : List StartEvent :=
  [ .launchBackend (child_env inherited)
  , .sleep 2
  , .bindFrontend "0.0.0.0" PROXY_PORT ]

/-- The exception `subprocess.Popen.wait` raises when the deadline passes. -/
inductive SubprocessError where
  | timeoutExpired
deriving DecidableEq, Repr

/-- `Popen.wait(timeout=b)` as a function of the child's exit delay after
`terminate()` (`none` = the child never exits): returns the delay when the
child exits within the bound, raises `TimeoutExpired` otherwise. -/
def proc_wait (exitDelay : Option Nat) (bound : Nat) :
    Except SubprocessError Nat :=
  match exitDelay with
  | some t => if t ≤ bound then .ok t else .error .timeoutExpired
  | none => .error .timeoutExpired

/-- Events of the shutdown sequence (lines 154–156):
`self.mcp_process.terminate(); self.mcp_process.wait(timeout=5)`.
There is no `kill()` call anywhere in the program. -/
inductive ProcEvent where
  | terminate
  | kill
  | wait (bound : Nat)
deriving DecidableEq, Repr

/-- The process-control calls the shutdown sequence issues, in order. -/
def shutdown_events : List ProcEvent := [.terminate, .wait 5]

/-- The result of the shutdown sequence as a function of the child's exit
delay: `ok` when `wait(timeout=5)` returns, `error` when it raises
`TimeoutExpired` (which propagates — nothing in `start` catches it). -/
def shutdown_result (exitDelay : Option Nat) : Except SubprocessError Unit :=
  (proc_wait exitDelay 5).map (fun _ => ())

/-! ## Dictionary-building lemmas

`buildFilteredDict` is a left fold of `dictInsert`; its membership is
characterised by the *last* value a key carries in the source sequence.
-/

/-- The value attached to the last occurrence of key `k` in `l`
(`none` when `k` does not occur). -/
def lastValue : Headers → String → Option String
  | [], _ => none
  | (k0, v0) :: t, k =>
    match lastValue t k with
    | some v => some v
    | none => if k0 = k then some v0 else none

theorem lastValue_cons_ne {k0 v0 : String} {t : Headers} {k : String}
    (h : k0 ≠ k) : lastValue ((k0, v0) :: t) k = lastValue t k := by
  cases hlv : lastValue t k with
  | none => simp [lastValue, hlv, h]
  | some v => simp [lastValue, hlv]

theorem lastValue_mem {k v : String} :
    ∀ {l : Headers}, lastValue l k = some v → (k, v) ∈ l := by
  intro l
  induction l with
  | nil => intro h; simp [lastValue] at h
  | cons p t ih =>
    obtain ⟨k0, v0⟩ := p
    intro h
    cases hlv : lastValue t k with
    | some v2 =>
      have hv : v2 = v := by
        have h2 := h
        simp only [lastValue, hlv, Option.some.injEq] at h2
        exact h2
      subst hv
      exact List.mem_cons_of_mem _ (ih hlv)
    | none =>
      by_cases hk : k0 = k
      · subst hk
        have hv : v0 = v := by
          have h2 := h
          simp [lastValue, hlv] at h2
          exact h2
        subst hv
        exact List.mem_cons_self _ _
      · exfalso
        rw [lastValue_cons_ne hk, hlv] at h
        exact Option.noConfusion h

theorem mem_dictInsert {d : Headers} {k v k2 v2 : String} :
    (k2, v2) ∈ dictInsert d k v ↔
      (k2 = k ∧ v2 = v) ∨ (k2 ≠ k ∧ (k2, v2) ∈ d) := by
  unfold dictInsert
  by_cases h : d.any (fun p => p.1 == k) = true
  · rw [if_pos h, List.mem_map]
    constructor
    · rintro ⟨p, hp, hfp⟩
      by_cases hpk : (p.1 == k) = true
      · rw [if_pos hpk] at hfp
        injection hfp with h1 h2
        exact Or.inl ⟨h1.symm, h2.symm⟩
      · rw [if_neg hpk] at hfp
        subst hfp
        exact Or.inr ⟨by simpa using hpk, hp⟩
    · rintro (⟨rfl, rfl⟩ | ⟨hne, hmem⟩)
      · obtain ⟨p, hp, hpk⟩ := List.any_eq_true.mp h
        exact ⟨p, hp, by rw [if_pos hpk]⟩
      · exact ⟨(k2, v2), hmem, by rw [if_neg (by simpa using hne)]⟩
  · rw [if_neg h]
    have hall : ∀ p ∈ d, p.1 ≠ k := by
      intro p hp hpk
      exact h (List.any_eq_true.mpr ⟨p, hp, by simpa using hpk⟩)
    rw [List.mem_append]
    constructor
    · rintro (hmem | heq)
      · exact Or.inr ⟨hall _ hmem, hmem⟩
      · rw [List.mem_singleton] at heq
        injection heq with h1 h2
        exact Or.inl ⟨h1, h2⟩
    · rintro (⟨rfl, rfl⟩ | ⟨_, hmem⟩)
      · exact Or.inr (List.mem_singleton.mpr rfl)
      · exact Or.inl hmem

theorem pyLower_ne_of_contains_ne {banned : List String} {a b : String}
    (ha : banned.contains (pyLower a) = true)
    (hb : ¬(banned.contains (pyLower b) = true)) : b ≠ a := by
  intro hba
  rw [hba] at hb
  exact hb ha

theorem filterStep_banned {banned : List String} {d : Headers}
    {p : String × String} (h : banned.contains (pyLower p.1) = true) :
    filterStep banned d p = d := by
  unfold filterStep
  rw [if_pos h]

theorem filterStep_allowed {banned : List String} {d : Headers}
    {p : String × String} (h : ¬(banned.contains (pyLower p.1) = true)) :
    filterStep banned d p = dictInsert d p.1 p.2 := by
  unfold filterStep
  rw [if_neg h]

theorem mem_foldl_filterStep (banned : List String) (l : Headers) :
    ∀ (d : Headers) (k v : String),
      ((k, v) ∈ l.foldl (filterStep banned) d ↔
        if banned.contains (pyLower k) then (k, v) ∈ d
        else (lastValue l k = some v ∨
              (lastValue l k = none ∧ (k, v) ∈ d))) := by
  induction l with
  | nil =>
    intro d k v
    by_cases hb : banned.contains (pyLower k) = true
    · rw [List.foldl_nil, if_pos hb]
    · rw [List.foldl_nil, if_neg hb]
      simp [lastValue]
  | cons p t ih =>
    intro d k v
    obtain ⟨k0, v0⟩ := p
    rw [List.foldl_cons]
    by_cases hb0 : banned.contains (pyLower k0) = true
    · rw [filterStep_banned hb0, ih d k v]
      by_cases hbk : banned.contains (pyLower k) = true
      · rw [if_pos hbk, if_pos hbk]
      · rw [if_neg hbk, if_neg hbk,
           lastValue_cons_ne (Ne.symm (pyLower_ne_of_contains_ne hb0 hbk))]
    · rw [filterStep_allowed hb0, ih (dictInsert d k0 v0) k v]
      by_cases hbk : banned.contains (pyLower k) = true
      · rw [if_pos hbk, if_pos hbk]
        have hne : k ≠ k0 := Ne.symm (pyLower_ne_of_contains_ne hbk hb0)
        rw [mem_dictInsert]
        constructor
        · rintro (⟨h1, _⟩ | ⟨_, h2⟩)
          · exact absurd h1 hne
          · exact h2
        · intro hm
          exact Or.inr ⟨hne, hm⟩
      · rw [if_neg hbk, if_neg hbk]
        by_cases hk : k0 = k
        · subst hk
          cases hlv : lastValue t k0 with
          | some v1 =>
            have hcons : lastValue ((k0, v0) :: t) k0 = some v1 := by
              simp [lastValue, hlv]
            rw [hcons]
            simp
          | none =>
            have hcons : lastValue ((k0, v0) :: t) k0 = some v0 := by
              simp [lastValue, hlv]
            rw [hcons, mem_dictInsert]
            simp [eq_comm]
        · have hne : k ≠ k0 := fun hkk => hk hkk.symm
          rw [lastValue_cons_ne hk, mem_dictInsert]
          simp [hne]

theorem mem_buildFilteredDict {banned : List String} {l : Headers}
    {k v : String} :
    (k, v) ∈ buildFilteredDict banned l ↔
      banned.contains (pyLower k) = false ∧ lastValue l k = some v := by
  unfold buildFilteredDict
  rw [mem_foldl_filterStep banned l [] k v]
  by_cases hb : banned.contains (pyLower k) = true
  · rw [if_pos hb]
    constructor
    · intro hmem
      exact absurd hmem (List.not_mem_nil _)
    · rintro ⟨hfalse, _⟩
      rw [hb] at hfalse
      exact Bool.noConfusion hfalse
  · rw [if_neg hb]
    have hb2 : banned.contains (pyLower k) = false := Bool.eq_false_iff.mpr hb
    constructor
    · rintro (hsome | ⟨_, hmem⟩)
      · exact ⟨hb2, hsome⟩
      · exact absurd hmem (List.not_mem_nil _)
    · rintro ⟨_, hsome⟩
      exact Or.inl hsome

/-! ## Concrete requests used by witnesses -/

/-- A concrete `GET /health` request. -/
def reqGet : InboundRequest :=
  { method := "GET", path := "/health", path_qs := "/health"
  , headers := [], body := none }

/-- A concrete `POST /health` request. -/
def reqPost : InboundRequest :=
  { method := "POST", path := "/health", path_qs := "/health"
  , headers := [("Content-Type", "application/json")], body := some "x" }

/-- A concrete `HEAD /health` request. -/
def reqHead : InboundRequest :=
  { method := "HEAD", path := "/health", path_qs := "/health"
  , headers := [], body := none }

/-! ## The claims -/

/-- Claim C1: `proxy_handler` makes exactly one forward attempt per inbound
request — the result is fully determined by the first oracle outcome and the
rest of the oracle is never consulted — and maps the outcome of that single
attempt: a timeout gives status 504 with the plain-text body
`"Gateway Timeout"`, any other connectivity failure gives status 502 with the
plain-text body `"Bad Gateway"`. -/
theorem single_attempt_error_mapping (req : InboundRequest)
    (o : ForwardOutcome) (rest rest2 : List ForwardOutcome) (msg : String) :
    (proxy_handler req (o :: rest)).2 = 1
    ∧ proxy_handler req (o :: rest) = proxy_handler req (o :: rest2)
    ∧ proxy_handler req (ForwardOutcome.timeout :: rest)
        = (some (textResponse "Gateway Timeout" 504), 1)
    ∧ proxy_handler req (ForwardOutcome.failure msg :: rest)
        = (some (textResponse "Bad Gateway" 502), 1) :=
  ⟨rfl, rfl, rfl, rfl⟩

/-- Claim C2 (counterexample): the outbound header set is built with a Python
`dict` comprehension, so two inbound entries sharing the name `"X-A"`
collapse; the pair `("X-A", "1")` is not hop-by-hop and is in the inbound
set, yet it is absent from the outbound set — refuting "all other headers
pass through with unchanged names and values". -/
theorem header_passthrough_counterexample :
    filterRequestHeaders [("X-A", "1"), ("X-A", "2")] = [("X-A", "2")]
    ∧ ("X-A", "1") ∉ filterRequestHeaders [("X-A", "1"), ("X-A", "2")]
    ∧ hopByHopRequest.contains (pyLower "X-A") = false
    ∧ ("X-A", "1") ∈ ([("X-A", "1"), ("X-A", "2")] : Headers) := by
  refine ⟨?_, ?_, ?_, ?_⟩ <;> decide

/-- Claim C2 (amended): for every forwarded request the outbound header set
contains no member, under any letter case, of the hop-by-hop request set, and
the relayed response header set contains no member of the hop-by-hop response
set, even when the originals included them; every other header name passes
through with exactly the value of its last occurrence in the source header
sequence (the `dict` build collapses duplicate names, last value wins). -/
theorem header_filtering_amended (hs : Headers) (k v : String) :
    ((k, v) ∈ filterRequestHeaders hs ↔
       hopByHopRequest.contains (pyLower k) = false ∧ lastValue hs k = some v)
    ∧ ((k, v) ∈ filterResponseHeaders hs ↔
       hopByHopResponse.contains (pyLower k) = false ∧ lastValue hs k = some v) :=
  ⟨mem_buildFilteredDict, mem_buildFilteredDict⟩

/-- Claim C3: every `GET /health` request is answered locally with status
200, JSON content type, and exactly the fixed JSON object
`status=healthy, service=mcp-server, proxy=active`; the handler consults no
backend (attempt count 0, whatever the oracle holds) and is a pure constant,
so any number of calls produce identical responses. -/
theorem health_liveness (req req2 : InboundRequest)
    (oracle : List ForwardOutcome)
    (hm : req.method = "GET") (hp : req.path = "/health") :
    handle_request req oracle
      = (some (json_response
          [("status", "healthy"), ("service", "mcp-server"),
           ("proxy", "active")]), 0)
    ∧ (health_handler req).status = 200
    ∧ (health_handler req).contentType = some "application/json"
    ∧ health_handler req = health_handler req2 := by
  refine ⟨?_, rfl, rfl, rfl⟩
  have hres : resolve_route req.method req.path = RouteTarget.health := by
    unfold resolve_route
    rw [hm, hp]
    decide
  unfold handle_request
  rw [hres]
  rfl

/-- Claim C3 witness: the liveness theorem at a concrete `GET /health`
request with an empty oracle. -/
theorem health_liveness_witness :
    reqGet.method = "GET" ∧ reqGet.path = "/health"
    ∧ handle_request reqGet []
        = (some (json_response
            [("status", "healthy"), ("service", "mcp-server"),
             ("proxy", "active")]), 0) :=
  ⟨rfl, rfl, (health_liveness reqGet reqGet [] rfl rfl).1⟩

/-- Claim C4 (counterexample): a child that needs 10 seconds to exit misses
the 5-second deadline, and the shutdown sequence then raises
`subprocess.TimeoutExpired` out of `wait(timeout=5)` instead of returning —
refuting "returns even if the child misses the deadline". -/
theorem shutdown_counterexample :
    shutdown_result (some 10) = Except.error SubprocessError.timeoutExpired
    ∧ shutdown_result (some 10) ≠ Except.ok () := by
  refine ⟨rfl, ?_⟩
  intro h
  simp [shutdown_result, proc_wait, Except.map] at h

/-- Claim C4 (amended): the shutdown sequence issues the graceful-terminate
call exactly once and never escalates to a hard kill, and waits with bound 5
seconds; it returns normally exactly when the child exits within 5 seconds of
`terminate()`, and raises `TimeoutExpired` — which propagates instead of a
normal return — when the child misses the deadline or never exits. -/
theorem shutdown_amended (t : Nat) :
    shutdown_events.count ProcEvent.terminate = 1
    ∧ ProcEvent.kill ∉ shutdown_events
    ∧ shutdown_events = [ProcEvent.terminate, ProcEvent.wait 5]
    ∧ (shutdown_result (some t) = Except.ok () ↔ t ≤ 5)
    ∧ shutdown_result none = Except.error SubprocessError.timeoutExpired := by
  refine ⟨by decide, by decide, rfl, ?_, rfl⟩
  by_cases h : t ≤ 5
  · simp [shutdown_result, proc_wait, Except.map, h]
  · simp [shutdown_result, proc_wait, Except.map, h]

/-- Claim C5: the child-output log filter is a pure substring predicate — a
line is suppressed iff it contains both the liveness-path indicator
`"GET /health"` and the not-found indicator `"404"`; lines with only one of
the two (a liveness access without a 404, or a 404 on another path) are
printed. -/
theorem log_filter_pure_substring (line : String) :
    (shouldPrint line = false ↔
      (strContains line "GET /health" = true ∧ strContains line "404" = true))
    ∧ shouldPrint "INFO: GET /health HTTP/1.1 404 Not Found" = false
    ∧ shouldPrint "INFO: GET /health HTTP/1.1 200 OK" = true
    ∧ shouldPrint "INFO: GET /api HTTP/1.1 404 Not Found" = true := by
  refine ⟨?_, by decide, by decide, by decide⟩
  unfold shouldPrint
  cases h1 : strContains line "GET /health" <;>
    cases h2 : strContains line "404" <;> simp

/-- Claim C6: startup launches the backend child exactly once, and the child
environment is the inherited environment with exactly one modification —
`ARCHON_MCP_PORT` is set to `"8052"`; a pair belongs to the child environment
iff it is that override or an inherited pair under a different name. -/
theorem child_launch_env (inherited : Headers) (k v : String) :
    (start_events inherited).countP StartEvent.isLaunch = 1
    ∧ StartEvent.launchBackend (child_env inherited) ∈ start_events inherited
    ∧ ((k, v) ∈ child_env inherited ↔
        ((k = "ARCHON_MCP_PORT" ∧ v = "8052") ∨
         (k ≠ "ARCHON_MCP_PORT" ∧ (k, v) ∈ inherited))) := by
  refine ⟨?_, ?_, ?_⟩
  · simp [start_events, List.countP_cons, List.countP_nil,
          StartEvent.isLaunch]
  · exact List.mem_cons_self _ _
  · unfold child_env
    rw [mem_dictInsert]
    rw [show toString MCP_PORT = "8052" from rfl]

/-- Claim C7: the outbound request preserves the inbound method and body,
its URL is the backend host and private port with the inbound path and query
string appended unchanged, redirects are disabled (and the timeout fixed at
30 seconds) so upstream 3xx responses are relayed like any success — whose
status and body are copied verbatim, with only the headers filtered. -/
theorem forward_shape (req : InboundRequest) (resp : UpstreamResponse)
    (rest : List ForwardOutcome) :
    (buildOutbound req).url = "http://localhost:8052" ++ req.path_qs
    ∧ (buildOutbound req).method = req.method
    ∧ (buildOutbound req).body = req.body
    ∧ (buildOutbound req).allow_redirects = false
    ∧ (buildOutbound req).timeout_total = 30
    ∧ proxy_handler req (ForwardOutcome.success resp :: rest)
        = (some { status := resp.status
                , headers := filterResponseHeaders resp.headers
                , contentType := none
                , body := Body.raw resp.body }, 1) := by
  refine ⟨?_, rfl, rfl, rfl, rfl, rfl⟩
  show target_url req = _
  unfold target_url
  rw [show ("http://localhost:" ++ toString MCP_PORT)
        = "http://localhost:8052" from rfl]

/-- Claim C8: startup order — the backend child is launched first (index 0),
then the fixed 2-second settle sleep happens (index 1), and only afterwards
does the frontend bind the public port 8051 (index 2). -/
theorem startup_sequencing (inherited : Headers) :
    start_events inherited
      = [StartEvent.launchBackend (child_env inherited),
         StartEvent.sleep 2,
         StartEvent.bindFrontend "0.0.0.0" 8051]
    ∧ (start_events inherited).findIdx StartEvent.isLaunch = 0
    ∧ (start_events inherited).findIdx StartEvent.isSleep = 1
    ∧ (start_events inherited).findIdx StartEvent.isBind = 2
    ∧ PROXY_PORT = 8051 :=
  ⟨rfl, rfl, rfl, rfl, rfl⟩

/-- Claim C9 (counterexample): a `HEAD /health` request has a non-GET
method, yet it is answered locally: `add_get` registers the liveness handler
for HEAD as well (aiohttp `allow_head` default), so the request resolves to
the liveness route, is served by `health_handler` with no forward attempt,
and is not handled like a forwarded request. -/
theorem nonget_health_counterexample :
    reqHead.method ≠ "GET"
    ∧ reqHead.path = "/health"
    ∧ resolve_route reqHead.method reqHead.path = RouteTarget.health
    ∧ handle_request reqHead [ForwardOutcome.timeout]
        = (some (health_handler reqHead), 0)
    ∧ handle_request reqHead [ForwardOutcome.timeout]
        ≠ proxy_handler reqHead [ForwardOutcome.timeout] := by
  refine ⟨by decide, rfl, by decide, by decide, by decide⟩

/-- Claim C9 (amended): a request to `/health` whose method is neither GET
nor HEAD is not answered locally by the liveness handler: it resolves to the
catch-all route and is handled by `proxy_handler` exactly like any other
request (HEAD is the one extra locally-answered method, registered by
aiohttp's `add_get` alongside GET). -/
theorem nonget_health_forwarded_amended (req : InboundRequest)
    (oracle : List ForwardOutcome) (hm : req.method ≠ "GET")
    (hh : req.method ≠ "HEAD") (_hp : req.path = "/health") :
    resolve_route req.method req.path = RouteTarget.proxy
    ∧ handle_request req oracle = proxy_handler req oracle := by
  have hres : resolve_route req.method req.path = RouteTarget.proxy := by
    unfold resolve_route
    rw [if_neg]
    rintro ⟨h1 | h1, _⟩
    · exact hm h1
    · exact hh h1
  refine ⟨hres, ?_⟩
  unfold handle_request
  rw [hres]

/-- Claim C9 witness: a concrete `POST /health` request goes to the
catch-all route and the forwarding handler. -/
theorem nonget_health_forwarded_amended_witness :
    (reqPost.method ≠ "GET" ∧ reqPost.method ≠ "HEAD"
     ∧ reqPost.path = "/health")
    ∧ (resolve_route reqPost.method reqPost.path = RouteTarget.proxy
       ∧ handle_request reqPost [ForwardOutcome.timeout]
           = proxy_handler reqPost [ForwardOutcome.timeout]) :=
  ⟨⟨by decide, by decide, rfl⟩,
   nonget_health_forwarded_amended reqPost [ForwardOutcome.timeout]
     (by decide) (by decide) rfl⟩

/-- Claim C10: the forwarding handler is total at its boundary — the single
forward attempt always yields a response, with a timeout mapped to 504 and
any other exception, whatever its message (connectivity-related or not),
mapped to 502; no outcome escapes the handler. -/
theorem forwarding_total (req : InboundRequest) (o : ForwardOutcome)
    (rest : List ForwardOutcome) (msg : String) :
    ((proxy_handler req (o :: rest)).1).isSome = true
    ∧ (proxy_handler req (ForwardOutcome.failure msg :: rest)).1
        = some (textResponse "Bad Gateway" 502)
    ∧ (proxy_handler req (ForwardOutcome.timeout :: rest)).1
        = some (textResponse "Gateway Timeout" 504)
    ∧ (outcomeToResponse (ForwardOutcome.failure msg)).status = 502 :=
  ⟨rfl, rfl, rfl, rfl⟩

end HealthProxy
